import Mathlib

/-!
# Verification of the stakd-store production pipeline

A shallow embedding, in Lean 4, of the geometric and orchestration core of the
`stakd-store` backend (directory `src/backend`), together with theorems that
settle the specification's claims about it.

Embedding conventions:
* Pixel and vector coordinates are rationals (`ℚ`); the Python code works over
  floats but every quantity the theorems touch is exactly representable and the
  roundings involved are far from ties, so `ℚ` with Mathlib's `round` is a
  faithful model.
* Shapely polygons become `SPoly`: an exterior ring plus a list of interior
  (hole) rings, each ring a closed list of points.
* Calls into external geometry libraries (shapely `buffer`, `unary_union`)
  that the repository does not implement are taken as explicit function
  parameters of the embedded pipeline, so the theorems quantify over their
  behaviour; concrete instantiations used in witnesses model their documented
  behaviour on the simple shapes involved.
-/

/-- A point in pixel (or vector) space. -/
abbrev Pt : Type := ℚ × ℚ

/-- A ring: a closed list of points (first point repeated at the end, as in the
ring coordinate lists the source manipulates). -/
abbrev CRing : Type := List Pt

/-- A shapely polygon: exterior ring plus interior (hole) rings.
`cut_paths.py` constructs these with `Polygon(exterior, holes)`. -/
structure SPoly where
  exterior : CRing
  interiors : List CRing
deriving DecidableEq, Repr

/-- Shapely `is_empty` for the polygons the pipeline builds: no exterior ring. -/
def SPoly.isEmptyP (p : SPoly) : Bool := p.exterior = []

/-! ## Constants (`cut_paths.py` lines 30-49, `config.py`) -/

/-- `INPUT_DPI = 300` -/
def INPUT_DPI : ℚ := 300

/-- `OUTPUT_DPI = 72` -/
def OUTPUT_DPI : ℚ := 72

/-- `SCALE = OUTPUT_DPI / INPUT_DPI` (pixel → SVG unit). -/
def SCALE : ℚ := OUTPUT_DPI / INPUT_DPI

/-- `BLEED_INCHES = 0.0625` (1/16", `config.py`). -/
def BLEED_INCHES : ℚ := 1 / 16

/-- `CARD_CELL_WIDTH_WITH_BLEED = 2.625` (`config.py`: 2.5 + 2·bleed). -/
def CANVAS_W_IN : ℚ := 5 / 2 + 2 * BLEED_INCHES

/-- `CARD_CELL_HEIGHT_WITH_BLEED = 3.625` (`config.py`: 3.5 + 2·bleed). -/
def CANVAS_H_IN : ℚ := 7 / 2 + 2 * BLEED_INCHES

/-- `CANVAS_W_PX_DEFAULT = int(CANVAS_W_IN * INPUT_DPI)` (truncation). -/
def CANVAS_W_PX_DEFAULT : ℤ := ⌊CANVAS_W_IN * INPUT_DPI⌋

/-- `CANVAS_H_PX_DEFAULT = int(CANVAS_H_IN * INPUT_DPI)` (truncation). -/
def CANVAS_H_PX_DEFAULT : ℤ := ⌊CANVAS_H_IN * INPUT_DPI⌋

/-- `CANVAS_W_SVG = round(CANVAS_W_PX_DEFAULT * SCALE)`.  The value being
rounded is 188.88, far from a half, so Python's round-half-even and Mathlib's
`round` agree. -/
def CANVAS_W_SVG : ℤ := round ((CANVAS_W_PX_DEFAULT : ℚ) * SCALE)

/-- `CANVAS_H_SVG = round(CANVAS_H_PX_DEFAULT * SCALE)` (260.88 rounds to 261). -/
def CANVAS_H_SVG : ℤ := round ((CANVAS_H_PX_DEFAULT : ℚ) * SCALE)

/-- `TRIM_BLEED_INSET_PX = round(BLEED_INCHES * INPUT_DPI)` = round 18.75 = 19
(not a tie, so Python's banker rounding agrees with Mathlib's `round`). -/
def TRIM_BLEED_INSET_PX : ℤ := round (BLEED_INCHES * INPUT_DPI)

/-- `SPACER_INSET_MM = 0.5` -/
def SPACER_INSET_MM : ℚ := 1 / 2

/-- `SPACER_INSET_PX = round(SPACER_INSET_MM / 25.4 * INPUT_DPI)` = round 5.905… = 6. -/
def SPACER_INSET_PX : ℤ := round (SPACER_INSET_MM / (127 / 5) * INPUT_DPI)

/-- `OUTER_BORDER_TOLERANCE_PX = 5` -/
def OUTER_BORDER_TOLERANCE_PX : ℚ := 5

theorem canvas_w_px_default_val : CANVAS_W_PX_DEFAULT = 787 := by
  unfold CANVAS_W_PX_DEFAULT CANVAS_W_IN BLEED_INCHES INPUT_DPI; norm_num

theorem canvas_h_px_default_val : CANVAS_H_PX_DEFAULT = 1087 := by
  unfold CANVAS_H_PX_DEFAULT CANVAS_H_IN BLEED_INCHES INPUT_DPI; norm_num

theorem trim_inset_val : TRIM_BLEED_INSET_PX = 19 := by
  unfold TRIM_BLEED_INSET_PX BLEED_INCHES INPUT_DPI
  norm_num [round_eq]

theorem spacer_inset_val : SPACER_INSET_PX = 6 := by
  unfold SPACER_INSET_PX SPACER_INSET_MM INPUT_DPI
  norm_num [round_eq]

theorem canvas_svg_vals : CANVAS_W_SVG = 189 ∧ CANVAS_H_SVG = 261 := by
  constructor <;>
    norm_num [CANVAS_W_SVG, CANVAS_H_SVG, CANVAS_W_PX_DEFAULT, CANVAS_H_PX_DEFAULT,
      CANVAS_W_IN, CANVAS_H_IN, SCALE, BLEED_INCHES, INPUT_DPI, OUTPUT_DPI, round_eq]

/-! ## Polygon bounds and border classification (`cut_paths.py` 170-217) -/

/-- Minimum of a list with the first element as the seed (the lists the
pipeline takes bounds of are nonempty; `0` is a placeholder seed for `[]`). -/
def listMin : List ℚ → ℚ
  | [] => 0
  | x :: xs => xs.foldl min x

/-- Maximum of a list, seeded by its first element. -/
def listMax : List ℚ → ℚ
  | [] => 0
  | x :: xs => xs.foldl max x

/-- All coordinates of a polygon (exterior and holes), as shapely's `bounds`
ranges over the whole geometry. -/
def SPoly.allPoints (p : SPoly) : List Pt := p.exterior ++ p.interiors.flatten

/-- Shapely `poly.bounds`: `(minx, miny, maxx, maxy)`. -/
def SPoly.bounds (p : SPoly) : ℚ × ℚ × ℚ × ℚ :=
  let xs := p.allPoints.map Prod.fst
  let ys := p.allPoints.map Prod.snd
  (listMin xs, listMin ys, listMax xs, listMax ys)

/-- `_is_outer_border(poly, canvas_w_px, canvas_h_px)`: the polygon's bounding
box touches all four canvas edges within `OUTER_BORDER_TOLERANCE_PX`. -/
def is_outer_border (p : SPoly) (canvas_w_px canvas_h_px : ℚ) : Bool :=
  if p.isEmptyP then false
  else
    let (minx, miny, maxx, maxy) := p.bounds
    decide (minx ≤ OUTER_BORDER_TOLERANCE_PX ∧
      miny ≤ OUTER_BORDER_TOLERANCE_PX ∧
      maxx ≥ canvas_w_px - OUTER_BORDER_TOLERANCE_PX ∧
      maxy ≥ canvas_h_px - OUTER_BORDER_TOLERANCE_PX)

/-- `_is_trim_rect_border(poly, canvas_w_px, canvas_h_px)`. -/
def is_trim_rect_border (p : SPoly) (canvas_w_px canvas_h_px : ℚ) : Bool :=
  if p.isEmptyP then false
  else
    let i : ℚ := (TRIM_BLEED_INSET_PX : ℚ)
    let (minx, miny, maxx, maxy) := p.bounds
    decide (minx ≤ i + OUTER_BORDER_TOLERANCE_PX ∧
      miny ≤ i + OUTER_BORDER_TOLERANCE_PX ∧
      maxx ≥ canvas_w_px - i - OUTER_BORDER_TOLERANCE_PX ∧
      maxy ≥ canvas_h_px - i - OUTER_BORDER_TOLERANCE_PX)

/-- The exterior ring built by `_trim_rect_polygon`: the canvas inset by the
bleed amount on all sides (closed, as the source lists it). -/
def trimRectRing (canvas_w_px canvas_h_px : ℚ) : CRing :=
  let i : ℚ := (TRIM_BLEED_INSET_PX : ℚ)
  [(i, i), (canvas_w_px - i, i), (canvas_w_px - i, canvas_h_px - i),
    (i, canvas_h_px - i), (i, i)]

/-- `_trim_rect_polygon(canvas_w_px, canvas_h_px, keep_holes_from)`: the trim
rectangle, carrying over the holes of `keep_holes_from` when it is a nonempty
polygon that has interiors (the source's truthiness chain). -/
def trim_rect_polygon (canvas_w_px canvas_h_px : ℚ) (keepHolesFrom : Option SPoly) :
    SPoly :=
  let ext := trimRectRing canvas_w_px canvas_h_px
  match keepHolesFrom with
  | some p => if ¬p.isEmptyP ∧ p.interiors ≠ [] then ⟨ext, p.interiors⟩ else ⟨ext, []⟩
  | none => ⟨ext, []⟩

/-- One element of the list comprehension at `process_layer` lines 303-308
(also `process_layer_union` 397-402 and `process_layer_union_spacer` 448-453):
replace an outer-border polygon by the trim rectangle keeping its holes, leave
any other polygon untouched. -/
def substituteOuterBorder (canvas_w_px canvas_h_px : ℚ) (p : SPoly) : SPoly :=
  if is_outer_border p canvas_w_px canvas_h_px then
    trim_rect_polygon canvas_w_px canvas_h_px (some p)
  else p

/-- The full substitution pass over the traced geometry list. -/
def substituteOuterBorders (canvas_w_px canvas_h_px : ℚ) (polys : List SPoly) :
    List SPoly :=
  polys.map (substituteOuterBorder canvas_w_px canvas_h_px)

/-! ### C1: outer-border invariance -/

/-- C1. In every layer-processing pass (`process_layer`,
`process_layer_union`, `process_layer_union_spacer` all apply
`substituteOuterBorders`), any traced polygon whose bounding box touches all
four canvas edges within the fixed tolerance is replaced in the output by the
canonical trim rectangle (canvas inset by the bleed constant, 19 px, on all
sides), independent of the traced outline's shape, with the original polygon's
holes carried over unchanged. -/
theorem C1_outer_border_invariance (canvas_w_px canvas_h_px : ℚ) (polys : List SPoly)
    (p : SPoly) (hp : p ∈ polys)
    (hb : is_outer_border p canvas_w_px canvas_h_px = true) :
    substituteOuterBorder canvas_w_px canvas_h_px p =
      ⟨trimRectRing canvas_w_px canvas_h_px, p.interiors⟩ ∧
    SPoly.mk (trimRectRing canvas_w_px canvas_h_px) p.interiors ∈
      substituteOuterBorders canvas_w_px canvas_h_px polys := by
  have hmain : substituteOuterBorder canvas_w_px canvas_h_px p =
      ⟨trimRectRing canvas_w_px canvas_h_px, p.interiors⟩ := by
    unfold substituteOuterBorder
    rw [hb]
    simp only [if_true]
    unfold trim_rect_polygon
    have hne : ¬p.isEmptyP := by
      intro he
      unfold is_outer_border at hb
      rw [if_pos he] at hb
      exact Bool.false_ne_true hb
    by_cases hi : p.interiors = []
    · simp [hne, hi]
    · simp [hne, hi]
  refine ⟨hmain, ?_⟩
  unfold substituteOuterBorders
  rw [← hmain]
  exact List.mem_map_of_mem _ hp

/-- Witness for C1 at a concrete input: a non-rectangular outline spanning the
788×1088 canvas with one square hole is substituted by the trim rectangle with
the same hole. -/
theorem C1_outer_border_invariance_witness :
    is_outer_border
        ⟨[(0, 0), (788, 3), (788, 1088), (0, 1085), (0, 0)],
          [[(100, 100), (100, 200), (200, 200), (200, 100), (100, 100)]]⟩
        788 1088 = true ∧
    substituteOuterBorder 788 1088
        ⟨[(0, 0), (788, 3), (788, 1088), (0, 1085), (0, 0)],
          [[(100, 100), (100, 200), (200, 200), (200, 100), (100, 100)]]⟩ =
      ⟨trimRectRing 788 1088,
        [[(100, 100), (100, 200), (200, 200), (200, 100), (100, 100)]]⟩ := by
  have hb : is_outer_border
      ⟨[(0, 0), (788, 3), (788, 1088), (0, 1085), (0, 0)],
        [[(100, 100), (100, 200), (200, 200), (200, 100), (100, 100)]]⟩
      788 1088 = true := by
    norm_num [is_outer_border, SPoly.bounds, SPoly.allPoints, SPoly.isEmptyP,
      listMin, listMax, OUTER_BORDER_TOLERANCE_PX, List.cons_ne_nil]
  exact ⟨hb,
    (C1_outer_border_invariance 788 1088
      [⟨[(0, 0), (788, 3), (788, 1088), (0, 1085), (0, 0)],
        [[(100, 100), (100, 200), (200, 200), (200, 100), (100, 100)]]⟩]
      _ (List.mem_singleton.mpr rfl) hb).1⟩

/-! ## Spacer derivation (`cut_paths.py` 220-251 and 318-342) -/

/-- Model of the shapely call chain applied to one hole ring inside
`_expand_holes_for_spacer` (`Polygon(ring)`, `buffer(0)` repair when invalid,
`.buffer(inset)`, then the exterior ring of the result — first component if a
MultiPolygon — reversed): `none` models an empty buffer result.  Shapely is an
external library, so the pipeline is parameterised by this function. -/
def HoleBuffer : Type := CRing → ℚ → Option CRing

/-- Model of shapely `poly.buffer(-inset)` used for non-border shapes in the
spacer pass: the resulting polygon(s), `[]` when the shrink collapses the shape
to empty. -/
def ShrinkBuffer : Type := SPoly → ℚ → List SPoly

/-- Model of shapely `unary_union` followed by flattening `geoms`
(`process_layer` 295-299 and `process_layer_union_spacer` 477-481). -/
def UnionOp : Type := List SPoly → List SPoly

/-- `_expand_holes_for_spacer(poly, inset_px)`: keep the exterior as is, grow
each hole by `inset_px` through the buffer model; rings of fewer than 3 points
and empty buffer results are skipped; if nothing survives, the polygon is
returned unchanged. -/
def expand_holes_for_spacer (buf : HoleBuffer) (p : SPoly) (inset_px : ℚ) : SPoly :=
  if p.interiors = [] then p
  else
    let newHoles := p.interiors.filterMap fun ring =>
      if ring.length < 3 then none else buf ring inset_px
    if newHoles = [] then p else ⟨p.exterior, newHoles⟩

/-- The per-polygon spacer rule of `process_layer` (lines 320-337, identical in
`process_layer_union_spacer` 455-470): a trim-rect border keeps its exterior
and gets its holes expanded; any other shape is shrunk by the spacer inset. -/
def spacerOne (buf : HoleBuffer) (shrink : ShrinkBuffer) (cw ch : ℚ) (p : SPoly) :
    List SPoly :=
  if is_trim_rect_border p cw ch then
    if p.interiors ≠ [] then
      let e := expand_holes_for_spacer buf p (SPACER_INSET_PX : ℚ)
      if e.isEmptyP then [] else [e]
    else [p]
  else shrink p (SPACER_INSET_PX : ℚ)

/-- The spacer geometry list built by the loop over `cut_polys`. -/
def spacerStage (buf : HoleBuffer) (shrink : ShrinkBuffer) (cw ch : ℚ)
    (cutPolys : List SPoly) : List SPoly :=
  cutPolys.flatMap (spacerOne buf shrink cw ch)

/-- The hole rings of a border polygon after the spacer pass: each ring of at
least 3 points independently expanded by `SPACER_INSET_PX` through the buffer
model; if every hole vanishes, the original holes are kept (the source's
fallback `return poly`). -/
def expandedHoleRings (buf : HoleBuffer) (p : SPoly) : List CRing :=
  if p.interiors = [] then []
  else
    let nh := p.interiors.filterMap fun ring =>
      if ring.length < 3 then none else buf ring (SPACER_INSET_PX : ℚ)
    if nh = [] then p.interiors else nh

/-! ### C2: spacer flush property -/

/-- C2. For every polygon classified as the trim-rect border, the spacer pass
emits exactly one polygon whose exterior ring is the cut variant's exterior
ring unchanged (zero additional offset) and whose holes are the original holes
each independently expanded by `SPACER_INSET_PX` — only holes differ between
the cut and spacer border geometry. -/
theorem C2_spacer_flush (buf : HoleBuffer) (shrink : ShrinkBuffer) (cw ch : ℚ)
    (p : SPoly) (h : is_trim_rect_border p cw ch = true) :
    spacerOne buf shrink cw ch p = [⟨p.exterior, expandedHoleRings buf p⟩] := by
  obtain ⟨ext, ints⟩ := p
  have hne : (SPoly.mk ext ints).isEmptyP = false := by
    cases hb : (SPoly.mk ext ints).isEmptyP
    · rfl
    · unfold is_trim_rect_border at h
      rw [if_pos hb] at h
      cases h
  unfold spacerOne expand_holes_for_spacer expandedHoleRings
  rw [h]
  by_cases hi : ints = []
  · subst hi
    simp
  · simp only [ne_eq, hi, not_false_eq_true, if_true, if_false, if_neg hi]
    by_cases hnh : (ints.filterMap fun ring =>
        if ring.length < 3 then none else buf ring (SPACER_INSET_PX : ℚ)) = []
    · simp only [hnh, if_pos rfl, hne]
      simp [SPoly.isEmptyP] at hne
      simp [SPoly.isEmptyP, hne]
    · simp only [if_neg hnh]
      simp [SPoly.isEmptyP] at hne
      simp [SPoly.isEmptyP, hne]

/-- A concrete hole-buffer instance used to evaluate the spacer pass at a
concrete input: grows a rectangle ring outward by the inset on each side. -/
def growRectRing : HoleBuffer := fun ring q =>
  match ring with
  | [(a, b), (a2, b2), (c, d), (c2, d2), (a3, b3)] =>
      some [(a - q, b - q), (a2 + q, b2 - q), (c + q, d + q), (c2 - q, d2 + q),
        (a3 - q, b3 - q)]
  | _ => none

/-- Witness for C2 at a concrete input: the trim-rect border of a 788×1088
canvas with one square hole keeps its exterior and gets exactly the grown
hole. -/
theorem C2_spacer_flush_witness :
    is_trim_rect_border
        ⟨trimRectRing 788 1088,
          [[(100, 100), (200, 100), (200, 200), (100, 200), (100, 100)]]⟩
        788 1088 = true ∧
    spacerOne growRectRing (fun _ _ => []) 788 1088
        ⟨trimRectRing 788 1088,
          [[(100, 100), (200, 100), (200, 200), (100, 200), (100, 100)]]⟩ =
      [⟨trimRectRing 788 1088,
        [[(94, 94), (206, 94), (206, 206), (94, 206), (94, 94)]]⟩] := by
  have ht : is_trim_rect_border
      ⟨trimRectRing 788 1088,
        [[(100, 100), (200, 100), (200, 200), (100, 200), (100, 100)]]⟩
      788 1088 = true := by
    norm_num [is_trim_rect_border, SPoly.bounds, SPoly.allPoints, SPoly.isEmptyP,
      listMin, listMax, OUTER_BORDER_TOLERANCE_PX, trimRectRing, trim_inset_val,
      List.cons_ne_nil]
  refine ⟨ht, ?_⟩
  rw [C2_spacer_flush growRectRing (fun _ _ => []) 788 1088 _ ht]
  norm_num [expandedHoleRings, growRectRing, spacer_inset_val, List.filterMap]

/-! ## Path emitter (`cut_paths.py` 129-167) -/

/-- The `"{:.4f}"` formatting step of `_one_poly_to_d`, viewed as the rational
value the written decimal denotes: the coordinate rounded to 4 decimal
places.  (For the values the pipeline emits this rounding is never at a tie,
so float round-half-even agrees with `round`.) -/
def q4 (v : ℚ) : ℚ := (round (v * 10000) : ℚ) / 10000

/-- The coordinate pair written for one ring point: pixel values scaled by
`SCALE` and formatted to 4 decimals (`cut_paths.py` 151, 154-156, 160-165). -/
def emitCoord (c : Pt) : Pt := (q4 (c.1 * SCALE), q4 (c.2 * SCALE))

/-- The coordinate stream written for one ring. -/
def emittedRing (ring : CRing) : CRing := ring.map emitCoord

/-- The coordinates written for one polygon: exterior subpath then one
subpath per hole, as `_one_poly_to_d` emits them. -/
def emittedPoly (p : SPoly) : SPoly :=
  ⟨emittedRing p.exterior, p.interiors.map emittedRing⟩

/-- `%.4f` of a rational: sign, integer part, dot, 4 zero-padded fraction
digits — the exact decimal text denoting `q4 v`. -/
def fmt4 (v : ℚ) : String :=
  let n : ℤ := round (v * 10000)
  let sign := if n < 0 then "-" else ""
  let a := n.natAbs
  let fpStr := Nat.repr (a % 10000)
  let padding := String.mk (List.replicate (4 - fpStr.length) '0')
  sign ++ Nat.repr (a / 10000) ++ "." ++ padding ++ fpStr

/-- The `"M x y"` / `"L x y"` / `"Z"` token list for one ring (the body of the
two loops of `_one_poly_to_d`). -/
def ringTokens (ring : CRing) : List String :=
  match ring with
  | [] => []
  | c :: rest =>
      (("M " ++ fmt4 (c.1 * SCALE) ++ " " ++ fmt4 (c.2 * SCALE)) ::
        rest.map fun c2 => "L " ++ fmt4 (c2.1 * SCALE) ++ " " ++ fmt4 (c2.2 * SCALE)) ++
      ["Z"]

/-- `_one_poly_to_d(poly, scale)`: exterior subpath then hole subpaths; rings
of fewer than 2 points produce nothing (an empty exterior yields `""`). -/
def one_poly_to_d (p : SPoly) : String :=
  if p.exterior.length < 2 then ""
  else
    String.intercalate " "
      (ringTokens p.exterior ++
        p.interiors.flatMap fun r => if r.length < 2 then [] else ringTokens r)

/-- `_polygons_to_svg_path_d(polygons)`: empty polygons are skipped, the rest
joined with spaces. -/
def polygons_to_svg_path_d (polys : List SPoly) : String :=
  String.intercalate " " ((polys.filter fun p => ¬p.isEmptyP).map one_poly_to_d)

/-! ### C3: scale round-trip -/

/-- Scaling an integer pixel coordinate by `SCALE = 72/300` gives a value with
at most 2 decimal digits, so 4-decimal formatting reproduces it exactly. -/
theorem q4_int_scale (a : ℤ) : q4 ((a : ℚ) * SCALE) = (a : ℚ) * SCALE := by
  unfold q4 SCALE OUTPUT_DPI INPUT_DPI
  have h : ((a : ℚ) * (72 / 300)) * 10000 = ((2400 * a : ℤ) : ℚ) := by
    push_cast
    ring
  rw [h, round_intCast]
  push_cast
  ring

/-- C3. For every traced polygon all of whose ring points have integer pixel
coordinates (as every contour traced by the pipeline does), the coordinates
written to the SVG path data are exactly `(x·SCALE, y·SCALE)` with
`SCALE = 72/300`, for the exterior ring and for every hole subpath. -/
theorem C3_scale_round_trip (p : SPoly)
    (hint : ∀ c ∈ p.allPoints, ∃ a b : ℤ, c = ((a : ℚ), (b : ℚ))) :
    emittedPoly p =
      ⟨p.exterior.map (fun c => (c.1 * SCALE, c.2 * SCALE)),
        p.interiors.map (List.map fun c => (c.1 * SCALE, c.2 * SCALE))⟩ := by
  have hcoord : ∀ c ∈ p.allPoints, emitCoord c = (c.1 * SCALE, c.2 * SCALE) := by
    intro c hc
    obtain ⟨a, b, rfl⟩ := hint c hc
    unfold emitCoord
    simp [q4_int_scale]
  unfold emittedPoly emittedRing
  congr 1
  · exact List.map_congr_left fun c hc =>
      hcoord c (by unfold SPoly.allPoints; exact List.mem_append_left _ hc)
  · refine List.map_congr_left fun r hr => List.map_congr_left fun c hc =>
      hcoord c ?_
    unfold SPoly.allPoints
    exact List.mem_append_right _ (List.mem_flatten.mpr ⟨r, hr, hc⟩)

/-- Witness for C3 at a concrete polygon with integer coordinates (one
exterior ring, one hole). -/
theorem C3_scale_round_trip_witness :
    (∀ c ∈ (SPoly.mk [((3 : ℚ), (5 : ℚ)), (7, 5), (3, 5)] [[(1, 2), (1, 1), (1, 2)]]).allPoints,
        ∃ a b : ℤ, c = ((a : ℚ), (b : ℚ))) ∧
    emittedPoly ⟨[(3, 5), (7, 5), (3, 5)], [[(1, 2), (1, 1), (1, 2)]]⟩ =
      ⟨[(3 * SCALE, 5 * SCALE), (7 * SCALE, 5 * SCALE), (3 * SCALE, 5 * SCALE)],
        [[(1 * SCALE, 2 * SCALE), (1 * SCALE, 1 * SCALE), (1 * SCALE, 2 * SCALE)]]⟩ := by
  have hint : ∀ c ∈ (SPoly.mk [((3 : ℚ), (5 : ℚ)), (7, 5), (3, 5)]
      [[(1, 2), (1, 1), (1, 2)]]).allPoints, ∃ a b : ℤ, c = ((a : ℚ), (b : ℚ)) := by
    intro c hc
    have hcases : c = ((3 : ℚ), (5 : ℚ)) ∨ c = (7, 5) ∨ c = (1, 2) ∨ c = (1, 1) := by
      simp [SPoly.allPoints] at hc
      tauto
    rcases hcases with h | h | h | h
    · exact ⟨3, 5, by rw [h]; norm_num⟩
    · exact ⟨7, 5, by rw [h]; norm_num⟩
    · exact ⟨1, 2, by rw [h]; norm_num⟩
    · exact ⟨1, 1, by rw [h]; norm_num⟩
  refine ⟨hint, ?_⟩
  rw [C3_scale_round_trip _ hint]
  simp

/-! ## Alpha binarization (`cut_paths.py` 52-69, `render.py` 266-268, 292-294) -/

/-- The contour tracer's binarization, `cut_paths._get_alpha_binary` line 68:
`binary = (alpha >= 128).astype(np.uint8) * 255`. -/
def tracer_alpha_binary (a : ℕ) : ℕ := if 128 ≤ a then 255 else 0

/-- The renderer's frame-layer binarization, `render.py` lines 267 and 293:
`a.point(lambda x: 255 if x > 128 else 0)`. -/
def renderer_alpha_binary (a : ℕ) : ℕ := if 128 < a then 255 else 0

/-- A loaded raster as `cv2.imread(..., IMREAD_UNCHANGED)` returns it:
`nchannels = none` models a 2-D (`ndim == 2`) array, `some c` a 3-D array with
`shape[2] = c`; `pixel y x ch` is the channel value in `0..255`. -/
structure LoadedImage where
  height : ℕ
  width : ℕ
  nchannels : Option ℕ
  pixel : ℕ → ℕ → ℕ → ℕ

/-- The alpha plane `_get_alpha_binary` selects (lines 61-67): the image
itself when 2-D, channel 3 when 4-channel, otherwise a constant-255 plane. -/
def alphaPlane (img : LoadedImage) : ℕ → ℕ → ℕ :=
  match img.nchannels with
  | none => fun y x => img.pixel y x 0
  | some c => if c = 4 then (fun y x => img.pixel y x 3) else fun _ _ => 255

/-- `_get_alpha_binary` after a successful load: threshold the selected alpha
plane at 128. -/
def get_alpha_binary (img : LoadedImage) : ℕ → ℕ → ℕ :=
  fun y x => tracer_alpha_binary (alphaPlane img y x)

/-! ### C4: threshold agreement between tracer and renderer -/

/-- C4 counterexample. The claim says the tracer marks a pixel opaque iff
`alpha ≥ 128` *and* that this classifies every alpha identically to the
renderer's frame binarization; at `alpha = 128` the tracer yields opaque (255)
while the renderer yields transparent (0), so the two functions are not
equal. -/
theorem C4_threshold_counterexample :
    tracer_alpha_binary 128 = 255 ∧ renderer_alpha_binary 128 = 0 ∧
      ¬(∀ a : ℕ, tracer_alpha_binary a = renderer_alpha_binary a) :=
  ⟨rfl, rfl, fun h => by simpa [tracer_alpha_binary, renderer_alpha_binary] using h 128⟩

/-- C4 (amended). The tracer's binarization marks a pixel opaque iff
`alpha ≥ 128`; it agrees with the renderer's frame binarization at every alpha
value except exactly 128, where the tracer gives opaque and the renderer gives
transparent. -/
theorem C4_threshold_amended :
    (∀ a : ℕ, tracer_alpha_binary a = 255 ↔ 128 ≤ a) ∧
    (∀ a : ℕ, a ≠ 128 → tracer_alpha_binary a = renderer_alpha_binary a) ∧
    tracer_alpha_binary 128 ≠ renderer_alpha_binary 128 := by
  refine ⟨fun a => ?_, fun a ha => ?_, by simp [tracer_alpha_binary, renderer_alpha_binary]⟩
  · unfold tracer_alpha_binary
    by_cases h : 128 ≤ a <;> simp [h]
  · unfold tracer_alpha_binary renderer_alpha_binary
    rcases Nat.lt_trichotomy a 128 with h | h | h
    · rw [if_neg (by omega), if_neg (by omega)]
    · exact absurd h ha
    · rw [if_pos (by omega), if_pos h]

/-- Witness for C4's amended theorem at concrete alpha values 127, 129, 200. -/
theorem C4_threshold_amended_witness :
    (tracer_alpha_binary 200 = 255 ↔ 128 ≤ 200) ∧
    ((127 : ℕ) ≠ 128 ∧ tracer_alpha_binary 127 = renderer_alpha_binary 127) ∧
    ((129 : ℕ) ≠ 128 ∧ tracer_alpha_binary 129 = renderer_alpha_binary 129) :=
  ⟨C4_threshold_amended.1 200,
    ⟨by decide, C4_threshold_amended.2.1 127 (by decide)⟩,
    ⟨by decide, C4_threshold_amended.2.1 129 (by decide)⟩⟩

/-! ### C10: images without an alpha channel are fully opaque -/

/-- C10. For every loaded image that is a 3-D array whose channel count is
neither 1 nor 4 (colour channels but no alpha), `_get_alpha_binary` returns
255 at every pixel: the whole canvas is treated as opaque. -/
theorem C10_no_alpha_fully_solid (img : LoadedImage) (c : ℕ)
    (hch : img.nchannels = some c) (h1 : c ≠ 1) (h4 : c ≠ 4) :
    ∀ y x : ℕ, get_alpha_binary img y x = 255 := by
  intro y x
  unfold get_alpha_binary alphaPlane
  rw [hch]
  simp only [if_neg h4]
  rfl

/-- Witness for C10 at a concrete 3-channel image whose pixel values are all
zero: the binary mask is still 255. -/
theorem C10_no_alpha_fully_solid_witness :
    get_alpha_binary ⟨1088, 788, some 3, fun _ _ _ => 0⟩ 0 0 = 255 ∧
    get_alpha_binary ⟨1088, 788, some 3, fun _ _ _ => 0⟩ 1087 787 = 255 :=
  ⟨C10_no_alpha_fully_solid _ 3 rfl (by decide) (by decide) 0 0,
    C10_no_alpha_fully_solid _ 3 rfl (by decide) (by decide) 1087 787⟩

/-! ## SVG output and `process_layer` (`cut_paths.py` 254-344, 410-509) -/

/-- An SVG document as `_write_svg` / `_write_empty_svg` produce it: canvas
size in SVG units and the optional single path element's `d` data
(`svgwrite` adds the path only when `path_d` is truthy). -/
structure SvgDoc where
  width : ℤ
  height : ℤ
  pathD : Option String
deriving DecidableEq, Repr

/-- `_write_svg(file_path, path_d)`: standard canvas, path element present iff
`path_d` is nonempty. -/
def write_svg (d : String) : SvgDoc :=
  ⟨CANVAS_W_SVG, CANVAS_H_SVG, if d = "" then none else some d⟩

/-- `_write_empty_svg(file_path)`: standard canvas, no path element. -/
def write_empty_svg : SvgDoc := ⟨CANVAS_W_SVG, CANVAS_H_SVG, none⟩

/-- The spacer geometry list `process_layer` builds (lines 319-337) from the
traced polygons: union of the traced polygons, outer-border substitution, then
the per-polygon spacer rule.  `contoursEmpty`/`polys = []` are the early-exit
cases. -/
def process_layer_spacer_geoms (uni : UnionOp) (buf : HoleBuffer)
    (shrink : ShrinkBuffer) (contoursEmpty : Bool) (polys : List SPoly)
    (cw ch : ℚ) : List SPoly :=
  if contoursEmpty ∨ polys = [] then []
  else spacerStage buf shrink cw ch (substituteOuterBorders cw ch (uni polys))

/-- `process_layer(image_path, output_base_name)`, from the traced contours
on: returns `((cut path, cut doc), (spacer path, spacer doc))`.  `uni` models
`unary_union` (line 295), `buf`/`shrink` the shapely buffers of the spacer
pass; `contoursEmpty` models `not contours`, `polys` the polygons built from
the contours. -/
def process_layer (uni : UnionOp) (buf : HoleBuffer) (shrink : ShrinkBuffer)
    (contoursEmpty : Bool) (polys : List SPoly) (cw ch : ℚ) (base : String) :
    (String × SvgDoc) × (String × SvgDoc) :=
  let cutName := base ++ "_cut.svg"
  let spacerName := base ++ "_spacer.svg"
  if contoursEmpty then ((cutName, write_empty_svg), (spacerName, write_empty_svg))
  else if polys = [] then ((cutName, write_empty_svg), (spacerName, write_empty_svg))
  else
    let cutPolys := substituteOuterBorders cw ch (uni polys)
    let cutDoc := write_svg (polygons_to_svg_path_d cutPolys)
    let spacerGeoms := process_layer_spacer_geoms uni buf shrink contoursEmpty polys cw ch
    let spacerDoc :=
      if spacerGeoms ≠ [] then write_svg (polygons_to_svg_path_d spacerGeoms)
      else write_empty_svg
    ((cutName, cutDoc), (spacerName, spacerDoc))

/-- `process_layer_union_spacer(...)` from the traced contours of the combined
mask on: substitution runs over the raw polygon list (line 448-453), the
spacer shapes are then re-merged with `unary_union` before emission
(lines 472-483). -/
def process_layer_union_spacer (uni : UnionOp) (buf : HoleBuffer)
    (shrink : ShrinkBuffer) (contoursEmpty : Bool) (polys : List SPoly)
    (cw ch : ℚ) (outName : String) : String × SvgDoc :=
  if contoursEmpty then (outName, write_empty_svg)
  else if polys = [] then (outName, write_empty_svg)
  else
    let cutPolys := substituteOuterBorders cw ch polys
    let spacerGeoms := spacerStage buf shrink cw ch cutPolys
    if spacerGeoms = [] then (outName, write_empty_svg)
    else (outName, write_svg (polygons_to_svg_path_d (uni spacerGeoms)))

/-! ### C8: empty geometry still yields both structurally valid files -/

/-- C8. Whenever tracing finds no contours, or every traced polygon is
degenerate/invalid after repair (no valid polygons), `process_layer` still
produces both the cut and the spacer SVG documents — at the standard canvas
size (189×261 SVG units) with no path content — and returns both file paths,
omitting neither. -/
theorem C8_empty_geometry (uni : UnionOp) (buf : HoleBuffer) (shrink : ShrinkBuffer)
    (contoursEmpty : Bool) (polys : List SPoly) (cw ch : ℚ) (base : String)
    (h : contoursEmpty = true ∨ polys = []) :
    process_layer uni buf shrink contoursEmpty polys cw ch base =
      ((base ++ "_cut.svg", write_empty_svg), (base ++ "_spacer.svg", write_empty_svg)) ∧
    write_empty_svg.width = 189 ∧ write_empty_svg.height = 261 ∧
    write_empty_svg.pathD = none := by
  refine ⟨?_, canvas_svg_vals.1, canvas_svg_vals.2, rfl⟩
  unfold process_layer
  rcases h with h | h
  · rw [h]
    rfl
  · rw [h]
    by_cases hc : contoursEmpty <;> simp [hc]

/-- Witness for C8: no contours traced in a 788×1088 mask for base name
`"hero"`. -/
theorem C8_empty_geometry_witness :
    process_layer (fun l => l) (fun _ _ => none) (fun _ _ => []) true [] 788 1088 "hero" =
      (("hero" ++ "_cut.svg", write_empty_svg), ("hero" ++ "_spacer.svg", write_empty_svg)) ∧
    write_empty_svg.pathD = none :=
  ⟨(C8_empty_geometry (fun l => l) (fun _ _ => none) (fun _ _ => []) true [] 788 1088
      "hero" (Or.inl rfl)).1,
    (C8_empty_geometry (fun l => l) (fun _ _ => none) (fun _ _ => []) true [] 788 1088
      "hero" (Or.inl rfl)).2.2.2⟩

/-! ### C5: spacer re-merge before emission -/

/-- Modelled from the spec and shapely's documented behaviour of
`unary_union`: overlapping/duplicate geometries are merged.  On the lists this
file evaluates it on — pairwise disjoint or exactly identical polygons — the
union keeps one copy of each distinct polygon, preserving order. -/
def unionDedup : UnionOp :=
  fun l => l.foldr (fun p acc => if p ∈ acc then acc else p :: acc) []

/-- A hole buffer that is never consulted in the evaluations below. -/
def bufNone : HoleBuffer := fun _ _ => none

/-- A shrink buffer that is never consulted in the evaluations below. -/
def shrinkEmpty : ShrinkBuffer := fun _ _ => []

/-- An L-shaped region hugging the left and bottom canvas edges of a 788×1088
mask; its bounding box touches all four edges within tolerance. -/
def polyA : SPoly :=
  ⟨[(0, 0), (3, 0), (3, 1085), (784, 1085), (784, 1088), (0, 1088), (0, 0)], []⟩

/-- An L-shaped region hugging the top and right canvas edges, disjoint from
`polyA`, whose bounding box also touches all four edges within tolerance. -/
def polyB : SPoly :=
  ⟨[(4, 0), (788, 0), (788, 1088), (785, 1088), (785, 3), (4, 3), (4, 0)], []⟩

/-- The hole-free trim rectangle of the 788×1088 canvas. -/
def trimT : SPoly := ⟨trimRectRing 788 1088, []⟩

theorem polyA_outer : is_outer_border polyA 788 1088 = true := by
  norm_num [is_outer_border, SPoly.bounds, SPoly.allPoints, SPoly.isEmptyP,
    listMin, listMax, OUTER_BORDER_TOLERANCE_PX, polyA, List.cons_ne_nil]

theorem polyB_outer : is_outer_border polyB 788 1088 = true := by
  norm_num [is_outer_border, SPoly.bounds, SPoly.allPoints, SPoly.isEmptyP,
    listMin, listMax, OUTER_BORDER_TOLERANCE_PX, polyB, List.cons_ne_nil]

theorem trimT_is_border : is_trim_rect_border trimT 788 1088 = true := by
  norm_num [is_trim_rect_border, SPoly.bounds, SPoly.allPoints, SPoly.isEmptyP,
    listMin, listMax, OUTER_BORDER_TOLERANCE_PX, trimT, trimRectRing,
    trim_inset_val, List.cons_ne_nil]

theorem unionDedup_AB : unionDedup [polyA, polyB] = [polyA, polyB] := by
  norm_num [unionDedup, polyA, polyB, SPoly.mk.injEq]

theorem subst_AB :
    substituteOuterBorders 788 1088 [polyA, polyB] = [trimT, trimT] := by
  unfold substituteOuterBorders substituteOuterBorder
  simp only [List.map, polyA_outer, polyB_outer, if_true]
  norm_num [trim_rect_polygon, polyA, polyB, trimT]

theorem spacer_stage_TT :
    spacerStage bufNone shrinkEmpty 788 1088 [trimT, trimT] = [trimT, trimT] := by
  unfold spacerStage
  simp only [List.flatMap_cons, List.flatMap_nil, List.append_nil]
  simp only [spacerOne, trimT_is_border, if_true]
  simp [trimT]

theorem spacer_geoms_AB :
    process_layer_spacer_geoms unionDedup bufNone shrinkEmpty false
      [polyA, polyB] 788 1088 = [trimT, trimT] := by
  unfold process_layer_spacer_geoms
  rw [if_neg (by simp)]
  rw [unionDedup_AB, subst_AB, spacer_stage_TT]

/-- C5 counterexample. A 788×1088 mask with two disjoint traced regions, each
hugging two canvas edges so that both bounding boxes touch all four edges,
makes `process_layer` substitute the trim rectangle twice; the spacer pass
keeps both copies, and the spacer SVG is emitted from that un-merged list: the
union (which would keep a single copy) is never applied, so the emitted spacer
geometry contains the same boundary twice, contrary to the claim. -/
theorem C5_spacer_union_counterexample :
    process_layer_spacer_geoms unionDedup bufNone shrinkEmpty false
        [polyA, polyB] 788 1088 = [trimT, trimT] ∧
    (process_layer unionDedup bufNone shrinkEmpty false [polyA, polyB]
        788 1088 "hero").2.2 =
      write_svg (polygons_to_svg_path_d [trimT, trimT]) ∧
    unionDedup [trimT, trimT] = [trimT] ∧
    ([trimT, trimT] : List SPoly) ≠ unionDedup [trimT, trimT] := by
  have hg := spacer_geoms_AB
  have huni : unionDedup [trimT, trimT] = [trimT] := by
    simp [unionDedup]
  refine ⟨hg, ?_, huni, ?_⟩
  · unfold process_layer
    simp only [Bool.false_eq_true, if_false, List.cons_ne_nil, if_neg]
    rw [hg]
    simp
  · rw [huni]
    simp

/-- C5 (amended). The spacer shapes are re-merged by union before emission in
`process_layer_union_spacer`; `process_layer`, by contrast, emits its spacer
geometry list directly, with no re-merge. -/
theorem C5_spacer_union_amended (uni : UnionOp) (buf : HoleBuffer)
    (shrink : ShrinkBuffer) (polys : List SPoly) (cw ch : ℚ)
    (base outName : String) (hp : polys ≠ [])
    (hg1 : spacerStage buf shrink cw ch (substituteOuterBorders cw ch polys) ≠ [])
    (hg2 : spacerStage buf shrink cw ch
      (substituteOuterBorders cw ch (uni polys)) ≠ []) :
    process_layer_union_spacer uni buf shrink false polys cw ch outName =
      (outName, write_svg (polygons_to_svg_path_d
        (uni (spacerStage buf shrink cw ch (substituteOuterBorders cw ch polys))))) ∧
    (process_layer uni buf shrink false polys cw ch base).2.2 =
      write_svg (polygons_to_svg_path_d
        (spacerStage buf shrink cw ch (substituteOuterBorders cw ch (uni polys)))) := by
  constructor
  · unfold process_layer_union_spacer
    simp [hp, hg1]
  · unfold process_layer process_layer_spacer_geoms
    simp [hp, hg2]

/-- Witness for C5's amended theorem at the concrete two-border-region input:
`process_layer_union_spacer` emits the merged single trim rectangle while
`process_layer` emits the duplicated pair. -/
theorem C5_spacer_union_amended_witness :
    process_layer_union_spacer unionDedup bufNone shrinkEmpty false
        [polyA, polyB] 788 1088 "hero_frame_spacer.svg" =
      ("hero_frame_spacer.svg", write_svg (polygons_to_svg_path_d
        (unionDedup (spacerStage bufNone shrinkEmpty 788 1088
          (substituteOuterBorders 788 1088 [polyA, polyB]))))) ∧
    (process_layer unionDedup bufNone shrinkEmpty false [polyA, polyB]
        788 1088 "hero").2.2 =
      write_svg (polygons_to_svg_path_d
        (spacerStage bufNone shrinkEmpty 788 1088
          (substituteOuterBorders 788 1088 (unionDedup [polyA, polyB])))) := by
  have hg1 : spacerStage bufNone shrinkEmpty 788 1088
      (substituteOuterBorders 788 1088 [polyA, polyB]) ≠ [] := by
    rw [subst_AB, spacer_stage_TT]
    simp
  have hg2 : spacerStage bufNone shrinkEmpty 788 1088
      (substituteOuterBorders 788 1088 (unionDedup [polyA, polyB])) ≠ [] := by
    rw [unionDedup_AB, subst_AB, spacer_stage_TT]
    simp
  exact C5_spacer_union_amended unionDedup bufNone shrinkEmpty [polyA, polyB]
    788 1088 "hero" "hero_frame_spacer.svg" (by simp) hg1 hg2

/-! ## Per-card rendering and the order loop
(`render.py` 421-459, `process_single_order.py` 78-120) -/

/-- The files present in one card's working directory when
`run_three_layer_for_dir` starts. -/
structure CardDir where
  bgSnap : Bool
  playerSnap : Bool
  frameSnap : Bool
  bg : Bool
  hero : Bool
  frame : Bool
deriving DecidableEq, Repr

/-- `run_three_layer_for_dir(assets_dir, design)`: when all three pre-rendered
snapshots exist they are used; otherwise the raw assets are mandatory and a
missing one raises `FileNotFoundError` (lines 444-452).  The rendering work
itself is not needed by the claims and is abstracted to `ok`. -/
def run_three_layer_for_dir (c : CardDir) : Except String Unit :=
  if c.bgSnap && c.playerSnap && c.frameSnap then Except.ok ()
  else if !c.bg then Except.error "Missing background.jpg"
  else if !c.hero then Except.error "Missing hero.png"
  else if !c.frame then Except.error "Missing frame.png"
  else Except.ok ()

/-- The per-card loop of `process_single_order` (lines 102-120): cards are
processed in order with no per-card exception handling, so an exception from
any card propagates out of the loop.  Returns the number of cards processed. -/
def process_order_cards : List CardDir → Except String ℕ
  | [] => Except.ok 0
  | c :: rest =>
      match run_three_layer_for_dir c with
      | Except.error e => Except.error e
      | Except.ok _ =>
          match process_order_cards rest with
          | Except.error e => Except.error e
          | Except.ok n => Except.ok (n + 1)

/-! ### C6: a missing mandatory raw asset -/

/-- A card directory with no snapshots and a missing mandatory background. -/
def badCard : CardDir := ⟨false, false, false, false, true, true⟩

/-- A card directory with all raw assets present. -/
def goodCard : CardDir := ⟨false, false, false, true, true, true⟩

/-- C6 counterexample.  A card with no pre-rendered snapshots and a missing
mandatory raw asset raises a fatal error, and — contrary to the claim — that
error aborts the whole order: a two-card order whose first card is broken
fails outright even though the second card alone processes fine. -/
theorem C6_missing_asset_counterexample :
    run_three_layer_for_dir badCard = Except.error "Missing background.jpg" ∧
    process_order_cards [goodCard] = Except.ok 1 ∧
    process_order_cards [badCard, goodCard] =
      Except.error "Missing background.jpg" ∧
    process_order_cards [badCard, goodCard] ≠ Except.ok 2 := by
  refine ⟨rfl, rfl, rfl, ?_⟩
  intro h
  cases h

/-- C6 (amended).  With no pre-rendered snapshots, a missing mandatory raw
asset is a fatal error for the card, and because `process_single_order`
iterates cards with no per-card handler the error propagates and aborts the
entire order, wherever the broken card sits in the list. -/
theorem C6_missing_asset_amended :
    (∀ c : CardDir, (c.bgSnap && c.playerSnap && c.frameSnap) = false →
      c.bg = false → run_three_layer_for_dir c = Except.error "Missing background.jpg") ∧
    (∀ (good : List CardDir) (c : CardDir) (rest : List CardDir) (e : String),
      (∀ g ∈ good, run_three_layer_for_dir g = Except.ok ()) →
      run_three_layer_for_dir c = Except.error e →
      process_order_cards (good ++ c :: rest) = Except.error e) := by
  constructor
  · intro c hsnap hbg
    unfold run_three_layer_for_dir
    rw [hsnap, hbg]
    rfl
  · intro good
    induction good with
    | nil =>
        intro c rest e _ hc
        simp only [List.nil_append]
        unfold process_order_cards
        rw [hc]
    | cons g gs ih =>
        intro c rest e hgood hc
        have hg : run_three_layer_for_dir g = Except.ok () :=
          hgood g (List.mem_cons_self g gs)
        have htail := ih c rest e (fun x hx => hgood x (List.mem_cons_of_mem g hx)) hc
        show process_order_cards (g :: (gs ++ c :: rest)) = Except.error e
        unfold process_order_cards
        rw [hg, htail]

/-- Witness for C6's amended theorem at a concrete three-card order: the
broken middle card fails the whole order. -/
theorem C6_missing_asset_amended_witness :
    ((badCard.bgSnap && badCard.playerSnap && badCard.frameSnap) = false ∧
      badCard.bg = false ∧
      run_three_layer_for_dir badCard = Except.error "Missing background.jpg") ∧
    process_order_cards [goodCard, badCard, goodCard] =
      Except.error "Missing background.jpg" := by
  refine ⟨⟨rfl, rfl, C6_missing_asset_amended.1 badCard rfl rfl⟩, ?_⟩
  exact C6_missing_asset_amended.2 [goodCard] badCard [goodCard]
    "Missing background.jpg"
    (fun g hg => by
      simp only [List.mem_singleton] at hg
      rw [hg]
      rfl)
    (C6_missing_asset_amended.1 badCard rfl rfl)

/-! ## Batch ganging and padding (`batch_manager.py` 85-131, `pdf_builder.py`) -/

/-- `NUM_PER_SHEET = 3` (`batch_manager.py` line 41). -/
def NUM_PER_SHEET : ℕ := 3

/-- `NUM_ROWS = 3` (`pdf_builder.py` line 41). -/
def NUM_ROWS : ℕ := 3

/-- The `while len(chunk) < NUM_PER_SHEET: chunk.append(chunk[0])` loop of
`run_batch` (lines 110-112); `first` is `chunk[0]`, which appending never
changes. -/
def padWhile (first : α) (chunk : List α) : List α :=
  if chunk.length < NUM_PER_SHEET then padWhile first (chunk ++ [first]) else chunk
termination_by NUM_PER_SHEET - chunk.length
decreasing_by
  simp only [List.length_append, List.length_singleton]
  omega

/-- Padding a (nonempty) chunk: run the while loop with the chunk's first
element.  (`run_batch` only ever pads the nonempty chunks produced by
`range`-slicing a nonempty list.) -/
def padChunk : List α → List α
  | [] => []
  | x :: xs => padWhile x (x :: xs)

/-- The length guard of `build_print_sheet_pdf_ganged` (and of
`build_cut_master_svg_ganged`), `pdf_builder.py` lines 566-567: exactly
`NUM_ROWS` hero and frame paths are required. -/
def build_print_sheet_pdf_ganged_check (heroPaths framePaths : List String) :
    Except String Unit :=
  if heroPaths.length ≠ NUM_ROWS ∨ framePaths.length ≠ NUM_ROWS then
    Except.error "Need exactly 3 hero and 3 frame paths"
  else Except.ok ()

theorem padWhile_eq (first : α) :
    ∀ (n : ℕ) (l : List α), NUM_PER_SHEET - l.length = n →
      padWhile first l = l ++ List.replicate n first := by
  intro n
  induction n with
  | zero =>
      intro l hl
      rw [padWhile, if_neg (by unfold NUM_PER_SHEET at hl ⊢; omega)]
      simp
  | succ m ih =>
      intro l hl
      rw [padWhile, if_pos (by unfold NUM_PER_SHEET at hl ⊢; omega)]
      rw [ih (l ++ [first]) (by simp at hl ⊢; omega)]
      simp [List.replicate_succ]

/-! ### C7: padding of a short final chunk -/

/-- C7.  A final chunk of 1 or 2 processed card sets is padded to exactly
`NUM_PER_SHEET = 3` slots by repeating the chunk's first item, so the 3-input
ganged builders always receive exactly 3 hero paths and 3 frame paths and
their length guard passes. -/
theorem C7_gang_padding (x : α) (xs : List α)
    (h : (x :: xs).length = 1 ∨ (x :: xs).length = 2) (f g : α → String) :
    (padChunk (x :: xs)).length = NUM_PER_SHEET ∧
    padChunk (x :: xs) =
      (x :: xs) ++ List.replicate (NUM_PER_SHEET - (x :: xs).length) x ∧
    build_print_sheet_pdf_ganged_check ((padChunk (x :: xs)).map f)
      ((padChunk (x :: xs)).map g) = Except.ok () := by
  have hpad : padChunk (x :: xs) =
      (x :: xs) ++ List.replicate (NUM_PER_SHEET - (x :: xs).length) x :=
    padWhile_eq x _ (x :: xs) rfl
  have hlen : (padChunk (x :: xs)).length = NUM_PER_SHEET := by
    rw [hpad]
    simp only [List.length_append, List.length_replicate]
    unfold NUM_PER_SHEET
    rcases h with h | h <;> rw [h]
  refine ⟨hlen, hpad, ?_⟩
  unfold build_print_sheet_pdf_ganged_check
  rw [if_neg]
  push_neg
  constructor <;> simp [hlen, NUM_PER_SHEET, NUM_ROWS]

/-- Witness for C7 at concrete 1- and 2-element chunks of path pairs. -/
theorem C7_gang_padding_witness :
    (padChunk ["card0"]).length = NUM_PER_SHEET ∧
    padChunk ["card0"] = ["card0", "card0", "card0"] ∧
    (padChunk ["card0", "card1"]).length = NUM_PER_SHEET ∧
    padChunk ["card0", "card1"] = ["card0", "card1", "card0"] ∧
    build_print_sheet_pdf_ganged_check (padChunk ["card0", "card1"])
      (padChunk ["card0", "card1"]) = Except.ok () := by
  have h1 := C7_gang_padding "card0" ([] : List String) (Or.inl rfl) id id
  have h2 := C7_gang_padding "card0" ["card1"] (Or.inr rfl) id id
  refine ⟨h1.1, ?_, h2.1, ?_, ?_⟩
  · rw [h1.2.1]
    rfl
  · rw [h2.2.1]
    rfl
  · have := h2.2.2
    simpa using this

/-! ## The production job registry (`main.py` 573-671)

The FastAPI handler `generate_production_files` is an `async def` with no
`await` between its registry check and update, so on the single event loop the
check-and-set runs atomically; the background worker `_run_production_sync`
touches the registry only once, when it records its terminal status.  The
registry is therefore modelled as a transition system whose two step kinds are
one handler invocation and one worker completion. -/

inductive JobStatus where
  | running
  | completed
  | failed
deriving DecidableEq, Repr

/-- The process-wide job registry (`PRODUCTION_JOBS` statuses and
`PRODUCTION_OUTPUT_DIRS`), plus a ghost count of live background workers per
order id: a worker becomes live at `thread.start()` (line 661) and leaves the
count when `_run_production_sync` records its terminal status. -/
structure Registry where
  job : String → Option JobStatus
  outDir : String → Option String
  inflight : String → ℕ

/-- Point update of a keyed map. -/
def setAt {β : Type} (f : String → Option β) (k : String) (v : Option β) :
    String → Option β :=
  fun k2 => if k2 = k then v else f k2

/-- The `POST /production/generate` handler (`main.py` 629-670), returning the
new registry, the HTTP status code, and whether a background worker thread was
started.  A `running` entry short-circuits (lines 640-649) before the `clean`
handling; otherwise `clean` drops the recorded output dir, the job is marked
running, and a worker is started. -/
def generate_production_files (s : Registry) (oid : String) (clean : Bool) :
    Registry × ℕ × Bool :=
  if s.job oid = some JobStatus.running then (s, 200, false)
  else
    let s1 : Registry :=
      if clean then { s with outDir := setAt s.outDir oid none } else s
    ({ s1 with
        job := setAt s1.job oid (some JobStatus.running),
        inflight := fun k => if k = oid then s1.inflight k + 1 else s1.inflight k },
      202, true)

/-- The tail of `_run_production_sync` (`main.py` 607-621): on success record
the output dir and `completed`, on failure record `failed`; either way the
worker stops being in flight. -/
def run_production_sync_finish (s : Registry) (oid : String)
    (result : Except String String) : Registry :=
  match result with
  | Except.ok dir =>
      { s with
          outDir := setAt s.outDir oid (some dir),
          job := setAt s.job oid (some JobStatus.completed),
          inflight := fun k => if k = oid then s.inflight k - 1 else s.inflight k }
  | Except.error _ =>
      { s with
          job := setAt s.job oid (some JobStatus.failed),
          inflight := fun k => if k = oid then s.inflight k - 1 else s.inflight k }

/-- Registry at process start: empty, no workers. -/
def initRegistry : Registry := ⟨fun _ => none, fun _ => none, fun _ => 0⟩

/-- One atomic event on the registry: a generate request for some order id, or
a live worker finishing. -/
inductive RegStep : Registry → Registry → Prop where
  | generate (s : Registry) (oid : String) (clean : Bool) :
      RegStep s (generate_production_files s oid clean).1
  | finish (s : Registry) (oid : String) (result : Except String String)
      (h : 1 ≤ s.inflight oid) :
      RegStep s (run_production_sync_finish s oid result)

/-- The single-flight invariant: at most one worker per order id, and a live
worker implies the registry records `running` for that id. -/
def RegInv (s : Registry) : Prop :=
  ∀ oid, s.inflight oid ≤ 1 ∧
    (s.inflight oid = 1 → s.job oid = some JobStatus.running)

/-- States reachable from process start. -/
def RegReachable : Registry → Prop := Relation.ReflTransGen RegStep initRegistry

theorem regStep_preserves_inv (s s' : Registry) (hinv : RegInv s)
    (hstep : RegStep s s') : RegInv s' := by
  cases hstep with
  | generate oid clean =>
      unfold generate_production_files
      by_cases hr : s.job oid = some JobStatus.running
      · rw [if_pos hr]
        exact hinv
      · rw [if_neg hr]
        intro k
        by_cases hk : k = oid
        · subst hk
          have h0 : s.inflight k = 0 := by
            rcases Nat.lt_or_ge (s.inflight k) 1 with h | h
            · omega
            · have h1 : s.inflight k = 1 := Nat.le_antisymm (hinv k).1 h
              exact absurd ((hinv k).2 h1) hr
          constructor
          · by_cases hc : clean <;>
              simp [hc, h0]
          · intro _
            by_cases hc : clean <;>
              simp [hc, setAt]
        · constructor
          · by_cases hc : clean <;>
              simp [hc, hk, (hinv k).1]
          · intro h1
            have : s.inflight k = 1 := by
              by_cases hc : clean <;> simpa [hc, hk] using h1
            have := (hinv k).2 this
            by_cases hc : clean <;>
              simp [hc, setAt, hk, this]
  | finish oid result h =>
      intro k
      by_cases hk : k = oid
      · subst hk
        have h1 : s.inflight k = 1 := Nat.le_antisymm (hinv k).1 h
        cases result with
        | ok dir =>
            constructor
            · simp [run_production_sync_finish, h1]
            · intro hcontra
              simp [run_production_sync_finish, h1] at hcontra
        | error e =>
            constructor
            · simp [run_production_sync_finish, h1]
            · intro hcontra
              simp [run_production_sync_finish, h1] at hcontra
      · cases result with
        | ok dir =>
            constructor
            · simp [run_production_sync_finish, hk, (hinv k).1]
            · intro h1
              have : s.inflight k = 1 := by simpa [run_production_sync_finish, hk] using h1
              simpa [run_production_sync_finish, setAt, hk] using (hinv k).2 this
        | error e =>
            constructor
            · simp [run_production_sync_finish, hk, (hinv k).1]
            · intro h1
              have : s.inflight k = 1 := by simpa [run_production_sync_finish, hk] using h1
              simpa [run_production_sync_finish, setAt, hk] using (hinv k).2 this

theorem regInv_of_reachable (s : Registry) (h : RegReachable s) : RegInv s := by
  unfold RegReachable at h
  induction h with
  | refl =>
      intro oid
      exact ⟨by simp [initRegistry], fun h1 => by simp [initRegistry] at h1⟩
  | tail _ hstep ih =>
      exact regStep_preserves_inv _ _ ih hstep

/-! ### C9: at most one production run per order id -/

/-- C9.  While the registry records status `running` for an order id, a
further generate request for that id returns immediately (HTTP 200, registry
untouched, no worker thread started); every step preserves the single-flight
invariant, so in every reachable registry state at most one production run per
order id is in flight. -/
theorem C9_single_run_per_order :
    (∀ (s : Registry) (oid : String) (clean : Bool),
      s.job oid = some JobStatus.running →
      generate_production_files s oid clean = (s, 200, false)) ∧
    (∀ s s' : Registry, RegInv s → RegStep s s' → RegInv s') ∧
    (∀ s : Registry, RegReachable s → ∀ oid, s.inflight oid ≤ 1) := by
  refine ⟨?_, regStep_preserves_inv, ?_⟩
  · intro s oid clean hr
    unfold generate_production_files
    rw [if_pos hr]
  · intro s hs oid
    exact (regInv_of_reachable s hs oid).1

/-- Witness for C9: a registry with a running job for `"order-1"` makes a
second request a no-op with no worker started, and the initial state trivially
satisfies the in-flight bound. -/
theorem C9_single_run_per_order_witness :
    (Registry.mk (fun k => if k = "order-1" then some JobStatus.running else none)
        (fun _ => none) (fun k => if k = "order-1" then 1 else 0)).job "order-1" =
      some JobStatus.running ∧
    generate_production_files
        ⟨fun k => if k = "order-1" then some JobStatus.running else none,
          fun _ => none, fun k => if k = "order-1" then 1 else 0⟩
        "order-1" true =
      (⟨fun k => if k = "order-1" then some JobStatus.running else none,
          fun _ => none, fun k => if k = "order-1" then 1 else 0⟩, 200, false) ∧
    RegReachable initRegistry ∧ initRegistry.inflight "order-1" ≤ 1 := by
  have hjob : (Registry.mk
      (fun k => if k = "order-1" then some JobStatus.running else none)
      (fun _ => none) (fun k => if k = "order-1" then 1 else 0)).job "order-1" =
      some JobStatus.running := by
    simp
  refine ⟨hjob, ?_, Relation.ReflTransGen.refl, ?_⟩
  · exact C9_single_run_per_order.1 _ "order-1" true hjob
  · exact C9_single_run_per_order.2.2 initRegistry Relation.ReflTransGen.refl "order-1"
